/-
Verification of the flight-delay prediction HTTP service
(`src/server/main.py`) against its specification.

The embedding below mirrors the Python source:

* `parsePyInt` models Python's `int(str)` conversion applied to the
  `AirportID` column (success on an optionally signed decimal numeral,
  surrounded by whitespace; failure = `ValueError`).
* `load_airports` models the `load_airports` function: it reads the CSV
  file (modelled as `Option (List RawRow)`, `none` = missing/unreadable
  file), converts each row's `AirportID` with `int(...)` and takes
  `AirportName` verbatim, sorts the records by `name` with Python's
  stable `list.sort(key=lambda x: x['name'])` (modelled by Mathlib's
  stable `List.insertionSort` on the `name` field), and returns `[]`
  whenever any exception occurs (`except Exception: return []`).
  A missing column (`KeyError`) is modelled by an `Option String` field.
* `predict_delay`, `get_airports`, `root` model the three FastAPI
  handlers; HTTP outcomes are values of `Response α` (`ok body` = 200,
  `error status detail` = `HTTPException(status_code, detail)`).
* The pickled classifier is opaque: a `PyModel` is a function from the
  two integer features to `Option (ℚ × ℚ)`, the pair being
  `predict_proba`'s `[p_no_delay, p_delay]` row and `none` an exception
  raised during scoring.  The module-level `model` variable is `none`
  when the pickle load failed at startup.
-/
import Mathlib

namespace FlightDelay

/-- A raw CSV row as produced by `csv.DictReader`: the two columns the
server reads, each `none` when the column is absent from the file
(in which case `row['...']` raises `KeyError`). -/
structure RawRow where
  airportID : Option String
  airportName : Option String
  deriving DecidableEq, Repr

/-- An airport record as built by `load_airports`:
`{'id': int(row['AirportID']), 'name': row['AirportName']}`. -/
structure Airport where
  id : Int
  name : String
  deriving DecidableEq, Repr

/-- The successful payload of `/predict`: the `PredictionResponse`
pydantic model with fields `delay_probability` and `confidence`. -/
structure PredictionResponse where
  delay_probability : ℚ
  confidence : ℚ
  deriving DecidableEq, Repr

/-- Result of an HTTP handler: `ok body` is a 200 response with a JSON
body, `error s d` is `raise HTTPException(status_code=s, detail=d)`. -/
inductive Response (α : Type) where
  | ok : α → Response α
  | error : Nat → String → Response α
  deriving DecidableEq, Repr

/-- The HTTP status code of a handler result. -/
def Response.status {α : Type} : Response α → Nat
  | .ok _ => 200
  | .error s _ => s

/-- Model of Python's `int(s)` on a string: strips surrounding
whitespace, accepts an optional sign followed by a nonempty digit
string, and raises `ValueError` (here: `none`) otherwise. -/
def parsePyInt (s : String) : Option Int :=
  let t := (s.toList.dropWhile Char.isWhitespace).reverse
    |>.dropWhile Char.isWhitespace |>.reverse
  let digits : List Char → Option Nat := fun ds =>
    if ds ≠ [] ∧ ds.all Char.isDigit then
      some (ds.foldl (fun acc c => acc * 10 + (c.toNat - 48)) 0)
    else none
  match t with
  | [] => none
  | c :: rest =>
    if c = '-' then (digits rest).map (fun n => -(n : Int))
    else if c = '+' then (digits rest).map (fun n => (n : Int))
    else (digits t).map (fun n => (n : Int))

/-- Conversion of one CSV row into an airport record, modelling
`{'id': int(row['AirportID']), 'name': row['AirportName']}`;
`none` models the `KeyError`/`ValueError` raised inside the loop. -/
def parseRow (r : RawRow) : Option Airport :=
  match r.airportID, r.airportName with
  | some idStr, some nm => (parsePyInt idStr).map (fun i => ⟨i, nm⟩)
  | _, _ => none

/-- Conversion of all rows, aborting at the first failing row exactly as
the `for row in reader` loop does when an exception escapes it. -/
def parseRows : List RawRow → Option (List Airport)
  | [] => some []
  | r :: rs =>
    match parseRow r with
    | none => none
    | some a => (parseRows rs).map (fun l => a :: l)

/-- Python's string comparison, lexicographic on Unicode code points:
`lexLe xs ys` is `xs <= ys` on the code-point sequences. -/
def lexLe : List Char → List Char → Bool
  | [], _ => true
  | _ :: _, [] => false
  | c :: cs, d :: ds =>
    if c.toNat < d.toNat then true
    else if d.toNat < c.toNat then false
    else lexLe cs ds

/-- The comparison `load_airports` sorts with:
`key=lambda x: x['name']` under Python's string ordering. -/
def nameLe (a b : Airport) : Prop := lexLe a.name.data b.name.data = true

instance : DecidableRel nameLe := fun a b =>
  inferInstanceAs (Decidable (lexLe a.name.data b.name.data = true))

/-- `airports.sort(key=lambda x: x['name'])`: Python's sort is stable,
modelled by Mathlib's stable insertion sort on the `name` field. -/
def sortByName (l : List Airport) : List Airport :=
  l.insertionSort nameLe

/-- The file state a call to `load_airports` observes: `none` when
`open('airports.csv')` fails (missing/unreadable file), otherwise the
row list produced by `csv.DictReader`. -/
def FileState : Type := Option (List RawRow)

/-- `load_airports`: parse every row, sort by name, and return the list;
on any exception (unreadable file, missing column, non-integer id)
return `[]`. -/
def load_airports (fs : FileState) : List Airport :=
  match fs with
  | none => []
  | some rows =>
    match parseRows rows with
    | none => []
    | some recs => sortByName recs

/-- The opaque classifier: `predict_proba([[day_of_week, airport_id]])[0]`
as the pair `(p_no_delay, p_delay)`; `none` models an exception raised
while scoring. -/
def PyModel : Type := Int → Int → Option (ℚ × ℚ)

/-- The process state the handlers close over: the module-level `model`
variable (`none` after a failed pickle load) and the airports file. -/
structure ServerState where
  model : Option PyModel
  airportsFile : FileState

/-- The `/predict` handler `predict_delay`. -/
def predict_delay (st : ServerState) (day_of_week airport_id : Int) :
    Response PredictionResponse :=
  match st.model with
  | none => .error 500 "Model not available"
  | some model =>
    if ¬ (1 ≤ day_of_week ∧ day_of_week ≤ 7) then
      .error 400 "day_of_week must be between 1 and 7"
    else
      match model day_of_week airport_id with
      | none => .error 500 "Prediction error"
      | some prediction =>
        .ok { delay_probability := prediction.2
              confidence := max prediction.1 prediction.2 }

/-- The `/airports` handler `get_airports`. -/
def get_airports (st : ServerState) : Response (List Airport) :=
  let airports_data := load_airports st.airportsFile
  if airports_data.isEmpty then
    .error 500 "Unable to load airports data"
  else
    .ok airports_data

/-- The static body returned by the root endpoint. -/
structure RootInfo where
  message : String
  predictEndpoint : String
  airportsEndpoint : String
  deriving DecidableEq, Repr

/-- The dictionary literal returned by `root`. -/
def rootPayload : RootInfo :=
  { message := "Flight Delay Prediction API"
    predictEndpoint :=
      "Predict flight delay probability (requires day_of_week and airport_id parameters)"
    airportsEndpoint := "Get list of all airports sorted alphabetically" }

/-- The `/` handler `root`: returns the static payload, reading nothing
from the process state. -/
def root (_ : ServerState) : Response RootInfo :=
  .ok rootPayload

/-! ### Order-theoretic facts about the sort key comparison -/

theorem lexLe_cons (c d : Char) (cs ds : List Char) :
    lexLe (c :: cs) (d :: ds) =
      if c.toNat < d.toNat then true
      else if d.toNat < c.toNat then false
      else lexLe cs ds := rfl

theorem lexLe_refl : ∀ xs : List Char, lexLe xs xs = true
  | [] => rfl
  | c :: cs => by
    rw [lexLe_cons, if_neg (Nat.lt_irrefl _), if_neg (Nat.lt_irrefl _)]
    exact lexLe_refl cs

theorem lexLe_trans :
    ∀ xs ys zs : List Char,
      lexLe xs ys = true → lexLe ys zs = true → lexLe xs zs = true
  | [], _, _, _, _ => rfl
  | _ :: _, [], _, h1, _ => by simp [lexLe] at h1
  | _ :: _, _ :: _, [], _, h2 => by simp [lexLe] at h2
  | c :: cs, d :: ds, e :: es, h1, h2 => by
    rw [lexLe_cons] at h1 h2 ⊢
    split_ifs at h1 h2 ⊢ <;>
      first
        | rfl
        | omega
        | exact lexLe_trans cs ds es h1 h2

theorem lexLe_total : ∀ xs ys : List Char, lexLe xs ys = true ∨ lexLe ys xs = true
  | [], _ => Or.inl rfl
  | _ :: _, [] => Or.inr rfl
  | c :: cs, d :: ds => by
    rw [lexLe_cons, lexLe_cons]
    rcases lexLe_total cs ds with h | h <;> split_ifs <;>
      first
        | exact Or.inl rfl
        | exact Or.inr rfl
        | exact Or.inl h
        | exact Or.inr h

instance : IsTrans Airport nameLe :=
  ⟨fun _ _ _ => lexLe_trans _ _ _⟩

instance : IsTotal Airport nameLe :=
  ⟨fun _ _ => lexLe_total _ _⟩

theorem nameLe_of_name_eq {a b : Airport} (h : a.name = b.name) : nameLe a b := by
  unfold nameLe
  rw [h]
  exact lexLe_refl _

/-! ### Sortedness and stability of `sortByName` -/

theorem sortByName_sorted (l : List Airport) : (sortByName l).Sorted nameLe :=
  List.sorted_insertionSort nameLe l

theorem load_airports_sorted (fs : FileState) :
    (load_airports fs).Sorted nameLe := by
  rcases fs with _ | rows
  · exact List.sorted_nil
  · rcases h : parseRows rows with _ | recs
    · simp only [load_airports, h]
      exact List.sorted_nil
    · simp only [load_airports, h]
      exact sortByName_sorted recs

theorem filter_orderedInsert (x : Airport) (s : String) :
    ∀ l : List Airport,
      (List.orderedInsert nameLe x l).filter (fun a => a.name == s) =
        if x.name == s then x :: l.filter (fun a => a.name == s)
        else l.filter (fun a => a.name == s)
  | [] => by
    simp only [List.orderedInsert, List.filter]
    cases h : (x.name == s) <;> simp [h]
  | y :: ys => by
    by_cases hxy : nameLe x y
    · rw [List.orderedInsert_of_le nameLe ys hxy, List.filter_cons]
    · simp only [List.orderedInsert, if_neg hxy, List.filter_cons]
      cases hx : (x.name == s) <;> cases hy : (y.name == s) <;>
        simp only [filter_orderedInsert x s ys, hx, hy, List.filter_cons,
          if_pos, if_neg, cond_true, cond_false, Bool.false_eq_true,
          ite_true, ite_false]
      exact absurd (nameLe_of_name_eq (by rw [beq_iff_eq] at hx hy; rw [hx, hy])) hxy

theorem filter_sortByName (s : String) :
    ∀ l : List Airport,
      (sortByName l).filter (fun a => a.name == s) = l.filter (fun a => a.name == s)
  | [] => rfl
  | x :: xs => by
    show (List.orderedInsert nameLe x (sortByName xs)).filter _ = _
    rw [filter_orderedInsert, filter_sortByName s xs, List.filter_cons]

/-! ### Parse failure propagation -/

theorem parseRow_eq_none_of_bad_id {r : RawRow} {s : String}
    (hid : r.airportID = some s) (hbad : parsePyInt s = none) :
    parseRow r = none := by
  rcases hn : r.airportName with _ | nm <;> simp [parseRow, hid, hn, hbad]

theorem parseRows_eq_none_of_mem {rows : List RawRow} {r : RawRow}
    (hmem : r ∈ rows) (hbad : parseRow r = none) : parseRows rows = none := by
  induction rows with
  | nil => cases hmem
  | cons a rs ih =>
    rcases List.mem_cons.mp hmem with h | h
    · subst h
      simp [parseRows, hbad]
    · rcases ha : parseRow a with _ | v
      · simp [parseRows, ha]
      · simp [parseRows, ha, ih h]

/-! ### Concrete fixtures used by scenario theorems and witnesses -/

/-- The reference file of the spec's worked scenario:
rows `(3, "Denver Intl")`, `(1, "Atlanta Intl")`, `(2, "Boston Logan")`
in that on-disk order. -/
def scenarioRows : List RawRow :=
  [⟨some "3", some "Denver Intl"⟩, ⟨some "1", some "Atlanta Intl"⟩,
   ⟨some "2", some "Boston Logan"⟩]

/-- The expected `/airports` body for `scenarioRows`. -/
def scenarioAirports : List Airport :=
  [⟨1, "Atlanta Intl"⟩, ⟨2, "Boston Logan"⟩, ⟨3, "Denver Intl"⟩]

/-- A reference file with two rows sharing the same name, in a fixed
on-disk order, to exhibit sort stability. -/
def dupNameRows : List RawRow :=
  [⟨some "5", some "Same Name"⟩, ⟨some "3", some "Same Name"⟩]

/-- The records of `dupNameRows` in file order. -/
def dupNameRecs : List Airport :=
  [⟨5, "Same Name"⟩, ⟨3, "Same Name"⟩]

/-- A reference file whose single row has a non-integer `AirportID`. -/
def badIdRows : List RawRow :=
  [⟨some "ABC", some "Alpha Field"⟩]

/-- A classifier stub scoring every input as `(1/4, 3/4)`. -/
def constModel : PyModel := fun _ _ => some (1/4, 3/4)

/-- The `/predict` body produced by `constModel`. -/
def constResp : PredictionResponse := ⟨3/4, max (1/4) (3/4)⟩

/-! ### Claim theorems -/

/-- C1, counterexample: with the model unavailable (`model = None`) and
`day_of_week = 0 ∉ [1,7]`, `/predict` answers 500, not 400 — the claim's
"regardless of the model's state" fails, because `predict_delay` checks
`model is None` before validating `day_of_week`. -/
theorem predict_invalid_day_counterexample :
    ((0 : Int) < 1 ∨ 7 < (0 : Int)) ∧
    predict_delay ⟨none, none⟩ 0 0 = .error 500 "Model not available" ∧
    (predict_delay ⟨none, none⟩ 0 0).status ≠ 400 := by
  refine ⟨Or.inl (by decide), rfl, by decide⟩

/-- C1 (amended): for every integer `day_of_week` outside `[1,7]` and
every `airport_id`, provided the model loaded successfully, `/predict`
returns HTTP 400 without consulting the model (the result does not
depend on the model function `m`). -/
theorem predict_invalid_day_returns_400 (m : PyModel) (fs : FileState)
    (d a : Int) (h : d < 1 ∨ 7 < d) :
    predict_delay ⟨some m, fs⟩ d a =
      .error 400 "day_of_week must be between 1 and 7" := by
  have hn : ¬ (1 ≤ d ∧ d ≤ 7) := by omega
  simp [predict_delay, hn]

/-- C1, witness: the amended theorem applied at `day_of_week = 9`. -/
theorem predict_invalid_day_returns_400_witness :
    ((9 : Int) < 1 ∨ 7 < (9 : Int)) ∧
    predict_delay ⟨some constModel, none⟩ 9 0 =
      .error 400 "day_of_week must be between 1 and 7" :=
  ⟨Or.inr (by decide),
   predict_invalid_day_returns_400 constModel none 9 0 (Or.inr (by decide))⟩

/-- C2: after a failed model load (`model = None`), every `/predict`
request fails with 500 "Model not available" (never a per-call reload),
while `/airports` is unaffected by the model state (same answer for any
model), returns 200 whenever the load succeeds with a nonempty list, and
`/` keeps returning 200 with the static payload. -/
theorem model_load_failure_isolated (fs : FileState) :
    (∀ d a : Int, predict_delay ⟨none, fs⟩ d a =
        .error 500 "Model not available") ∧
    (∀ mo : Option PyModel, get_airports ⟨mo, fs⟩ = get_airports ⟨none, fs⟩) ∧
    (load_airports fs ≠ [] → (get_airports ⟨none, fs⟩).status = 200) ∧
    (∀ mo : Option PyModel,
      root ⟨mo, fs⟩ = .ok rootPayload ∧ (root ⟨mo, fs⟩).status = 200) := by
  refine ⟨fun _ _ => rfl, fun _ => rfl, ?_, fun _ => ⟨rfl, rfl⟩⟩
  intro h
  rcases hl : load_airports fs with _ | ⟨x, t⟩
  · exact absurd hl h
  · simp [get_airports, hl, Response.status]

/-- C2, witness: the theorem applied to the scenario file. -/
theorem model_load_failure_isolated_witness :
    predict_delay ⟨none, some scenarioRows⟩ 3 7 =
      .error 500 "Model not available" ∧
    load_airports (some scenarioRows) ≠ [] ∧
    (get_airports ⟨none, some scenarioRows⟩).status = 200 ∧
    (root ⟨none, some scenarioRows⟩).status = 200 :=
  ⟨(model_load_failure_isolated (some scenarioRows)).1 3 7,
   by decide,
   (model_load_failure_isolated (some scenarioRows)).2.2.1 (by decide),
   ((model_load_failure_isolated (some scenarioRows)).2.2.2 none).2⟩

/-- C3: whenever `/predict` answers successfully and the classifier's
two-class distribution sums to 1, the returned confidence equals
`max(delay_probability, 1 - delay_probability)` and is at least 1/2. -/
theorem predict_confidence_spec (m : PyModel) (fs : FileState) (d a : Int)
    (p0 p1 : ℚ) (r : PredictionResponse)
    (hscore : m d a = some (p0, p1)) (hsum : p0 + p1 = 1)
    (hok : predict_delay ⟨some m, fs⟩ d a = .ok r) :
    r.confidence = max r.delay_probability (1 - r.delay_probability) ∧
      (1 : ℚ)/2 ≤ r.confidence := by
  simp only [predict_delay] at hok
  split at hok
  · exact absurd hok (by simp)
  · split at hok
    · exact absurd hok (by simp)
    · rename_i prediction heq
      rw [hscore] at heq
      injection heq with heq'
      subst heq'
      injection hok with hok'
      subst hok'
      have hp0 : p0 = 1 - p1 := by linarith
      subst hp0
      refine ⟨max_comm _ _, ?_⟩
      rcases le_total p1 (1/2 : ℚ) with h | h
      · exact le_max_iff.mpr (Or.inl (by linarith))
      · exact le_max_iff.mpr (Or.inr (by linarith))

/-- C3, witness: the theorem applied to a stub classifier scoring every
input as `(1/4, 3/4)`. -/
theorem predict_confidence_spec_witness :
    constModel 3 5 = some (1/4, 3/4) ∧ (1/4 : ℚ) + 3/4 = 1 ∧
    predict_delay ⟨some constModel, none⟩ 3 5 = .ok constResp ∧
    (constResp.confidence =
        max constResp.delay_probability (1 - constResp.delay_probability) ∧
      (1 : ℚ)/2 ≤ constResp.confidence) :=
  ⟨rfl, by norm_num, rfl,
   predict_confidence_spec constModel none 3 5 (1/4) (3/4) constResp rfl
     (by norm_num) rfl⟩

/-- C4: every list body a `/airports` response carries is sorted
ascending by the `name` field, for any file state (hence any row order
on disk), and re-invoking the handler on the unchanged file state gives
the identical result. -/
theorem airports_sorted_deterministic (st : ServerState) :
    (∀ l, get_airports st = .ok l → l.Sorted nameLe) ∧
    get_airports st = get_airports st := by
  refine ⟨fun l hl => ?_, rfl⟩
  have heq : l = load_airports st.airportsFile := by
    simp only [get_airports] at hl
    split at hl
    · exact absurd hl (by simp)
    · injection hl with h
      exact h.symm
  rw [heq]
  exact load_airports_sorted _

/-- C4, witness: the theorem applied to the scenario file. -/
theorem airports_sorted_deterministic_witness :
    get_airports ⟨none, some scenarioRows⟩ = .ok scenarioAirports ∧
    scenarioAirports.Sorted nameLe ∧
    get_airports ⟨none, some scenarioRows⟩ =
      get_airports ⟨none, some scenarioRows⟩ :=
  ⟨rfl,
   (airports_sorted_deterministic ⟨none, some scenarioRows⟩).1
     scenarioAirports rfl,
   (airports_sorted_deterministic ⟨none, some scenarioRows⟩).2⟩

/-- C5: if any row of the reference file has a non-integer `AirportID`,
`/airports` answers 500 "Unable to load airports data" — never a
partial list of the rows that did parse. -/
theorem airports_bad_id_fails_closed (mo : Option PyModel)
    (rows : List RawRow) (r : RawRow) (s : String)
    (hmem : r ∈ rows) (hid : r.airportID = some s)
    (hbad : parsePyInt s = none) :
    get_airports ⟨mo, some rows⟩ =
      .error 500 "Unable to load airports data" := by
  have h1 : parseRows rows = none :=
    parseRows_eq_none_of_mem hmem (parseRow_eq_none_of_bad_id hid hbad)
  simp [get_airports, load_airports, h1]

/-- C5, witness: the theorem applied to a one-row file whose
`AirportID` is the non-integer string "ABC". -/
theorem airports_bad_id_fails_closed_witness :
    (⟨some "ABC", some "Alpha Field"⟩ : RawRow) ∈ badIdRows ∧
    parsePyInt "ABC" = none ∧
    get_airports ⟨none, some badIdRows⟩ =
      .error 500 "Unable to load airports data" :=
  ⟨by simp [badIdRows], by decide,
   airports_bad_id_fails_closed none badIdRows
     ⟨some "ABC", some "Alpha Field"⟩ "ABC" (by simp [badIdRows]) rfl
     (by decide)⟩

/-- C6: `predict_delay` checks model availability before validating
`day_of_week`: whenever the model is `None`, every request — including
those with `day_of_week` outside `[1,7]` — answers
500 "Model not available". -/
theorem predict_model_check_precedes_validation (fs : FileState)
    (d a : Int) :
    predict_delay ⟨none, fs⟩ d a = .error 500 "Model not available" := rfl

/-- C7: on the file with rows `(3, "Denver Intl")`, `(1, "Atlanta
Intl")`, `(2, "Boston Logan")` in that order, `/airports` returns the
three records sorted by name, whatever the model state. -/
theorem airports_scenario (mo : Option PyModel) :
    get_airports ⟨mo, some scenarioRows⟩ = .ok scenarioAirports := rfl

/-- C8: `load_airports` is a total function of the file state: for every
file state it returns either the sorted fully parsed record list or the
empty list — the empty list being its only failure signal (no exception
reaches the caller). -/
theorem load_airports_total (fs : FileState) :
    load_airports fs = [] ∨
      ∃ rows recs, fs = some rows ∧ parseRows rows = some recs ∧
        load_airports fs = sortByName recs := by
  rcases fs with _ | rows
  · exact Or.inl rfl
  · rcases h : parseRows rows with _ | recs
    · exact Or.inl (by simp [load_airports, h])
    · exact Or.inr ⟨rows, recs, rfl, h, by simp [load_airports, h]⟩

/-- C9: the sort in `load_airports` is stable: for every file whose rows
all parse, the records carrying any given name appear in the output in
exactly their file order (the name-filtered output equals the
name-filtered file-order record list). -/
theorem airports_sort_stable (rows : List RawRow) (recs : List Airport)
    (s : String) (h : parseRows rows = some recs) :
    (load_airports (some rows)).filter (fun a => a.name == s) =
      recs.filter (fun a => a.name == s) := by
  simp only [load_airports, h]
  exact filter_sortByName s recs

/-- C9, witness: the theorem applied to a file with two rows named
"Same Name"; ids keep their on-disk order 5, 3 in the output. -/
theorem airports_sort_stable_witness :
    parseRows dupNameRows = some dupNameRecs ∧
    (load_airports (some dupNameRows)).filter
        (fun a => a.name == "Same Name") =
      dupNameRecs.filter (fun a => a.name == "Same Name") :=
  ⟨rfl, airports_sort_stable dupNameRows dupNameRecs "Same Name" rfl⟩

/-- C10: `/` always answers 200 with the same static payload, for every
process state — including one whose model failed to load. -/
theorem root_always_ok (st : ServerState) :
    root st = .ok rootPayload ∧ (root st).status = 200 :=
  ⟨rfl, rfl⟩

end FlightDelay
